import Mathlib

/-!
Shallow embedding of the user-profile-service backend (TypeScript/Express),
covering the error-classification boundary (src/middleware/errorHandler.ts),
the request validation schemas (src/middleware/validationMiddleware.ts) and
the user routes (src/routes/userRoutes.ts).  The relational store is modelled
as a list of rows; a store-level failure is modelled by an `Except.error`
database value.  JavaScript semantics that matter here are modelled
explicitly: object spread copies only own enumerable properties (so the
non-enumerable `message` and the inherited `name` of an Error are dropped),
and `x || d` treats `0`, the empty string and `undefined` as falsy.
-/

/-- A JavaScript error `code` value: the taxonomy uses strings, the MongoDB
duplicate-key branch compares against the number 11000. -/
inductive JsCode
  | str (s : String)
  | num (n : Nat)
deriving DecidableEq

/-- An error value as seen by the boundary handler.  `message` and `errName`
correspond to the `message` (own, non-enumerable) and `name` (inherited)
properties of a JS Error; `statusCode`, `status`, `code` and `keyPattern`
are own enumerable properties assigned by constructors, absent (`none`/`[]`)
on plain errors.  `isHttpError` models `err instanceof HttpError`. -/
structure JsError where
  message : String
  errName : String
  isHttpError : Bool
  statusCode : Option Nat
  status : Option String
  code : Option JsCode
  keyPattern : List String
deriving DecidableEq

/-- The `HttpError` constructor of errorHandler.ts: statusCode between 400
and 499 gives status fail, anything else status error. -/
def mkHttpError (message : String) (statusCode : Nat) (code : Option String) : JsError :=
  { message := message
    errName := "Error"
    isHttpError := true
    statusCode := some statusCode
    status := some (if 400 ≤ statusCode ∧ statusCode < 500 then "fail" else "error")
    code := code.map JsCode.str
    keyPattern := [] }

/-- `NotFoundError` subclass: 404, NOT_FOUND. -/
def notFoundError (message : String) : JsError :=
  mkHttpError message 404 (some "NOT_FOUND")

/-- `ValidationError` subclass: 400, VALIDATION_ERROR. -/
def mkValidationError (message : String) : JsError :=
  mkHttpError message 400 (some "VALIDATION_ERROR")

/-- `ConflictError` subclass: 409, CONFLICT. -/
def conflictError (message : String) : JsError :=
  mkHttpError message 409 (some "CONFLICT")

/-- The mutable `error` variable of errorHandler: a plain object or an
HttpError instance; every field that may be absent is an Option. -/
structure ErrState where
  message : Option String
  errName : Option String
  statusCode : Option Nat
  status : Option String
  code : Option JsCode
  keyPattern : List String
deriving DecidableEq

/-- `let error = { ...err }`: object spread copies own enumerable properties
only.  `message` is own but non-enumerable on Error instances and `name`
lives on the prototype, so both are dropped; `statusCode`, `status`, `code`
and `keyPattern` survive. -/
def spreadErr (err : JsError) : ErrState :=
  { message := none
    errName := none
    statusCode := err.statusCode
    status := err.status
    code := err.code
    keyPattern := err.keyPattern }

/-- Reading a field of a freshly constructed `new HttpError(...)` instance:
all fields present, name inherited as Error. -/
def instanceState (err : JsError) : ErrState :=
  { message := some err.message
    errName := some err.errName
    statusCode := err.statusCode
    status := err.status
    code := err.code
    keyPattern := err.keyPattern }

/-- JS `x || d` on an optional number: undefined and 0 are falsy. -/
def jsOrNat : Option Nat → Nat → Nat
  | some n, d => if n = 0 then d else n
  | none, d => d

/-- JS `x || d` on an optional string: undefined and the empty string are
falsy. -/
def jsOrStr : Option String → String → String
  | some s, d => if s = "" then d else s
  | none, d => d

/-- `...(error.code && { code: error.code })`: the code key is included only
when the value is truthy (nonempty string, nonzero number). -/
def codeIfTruthy : Option JsCode → Option JsCode
  | some (JsCode.str s) => if s = "" then none else some (JsCode.str s)
  | some (JsCode.num n) => if n = 0 then none else some (JsCode.num n)
  | none => none

/-- The JSON error envelope emitted by the boundary handler (the
development-only `stack` debug key is not part of the modelled envelope). -/
structure ErrResponse where
  statusCode : Nat
  success : Bool
  error : String
  code : Option JsCode
deriving DecidableEq

/-- The global error handler of errorHandler.ts.  `env` is
`process.env.NODE_ENV`.  Mirrors the source: spread the error, wrap
non-HttpError values as a 500 INTERNAL_SERVER_ERROR HttpError (message
suppressed in production), then the name/code classification branches, then
respond with `statusCode || 500` and `message || 'Something went wrong'`. -/
def errorHandler (env : String) (err : JsError) : ErrResponse :=
  let e0 := spreadErr err
  let e1 := if err.isHttpError then e0 else
    instanceState (mkHttpError
      (if env = "production" then "Something went wrong" else err.message)
      500 (some "INTERNAL_SERVER_ERROR"))
  let e2 := if e1.errName = some "ValidationError" then
    { e1 with statusCode := some 400, code := some (JsCode.str "VALIDATION_ERROR") } else e1
  let e3 := if e2.code = some (JsCode.num 11000) then
    { e2 with statusCode := some 409, code := some (JsCode.str "DUPLICATE_KEY"), message := some (e2.keyPattern.headD "undefined" ++ " already exists") } else e2
  let e4 := if e3.errName = some "JsonWebTokenError" then
    { e3 with statusCode := some 401, code := some (JsCode.str "INVALID_TOKEN") } else e3
  let e5 := if e4.errName = some "TokenExpiredError" then
    { e4 with statusCode := some 401, code := some (JsCode.str "TOKEN_EXPIRED") } else e4
  { statusCode := jsOrNat e5.statusCode 500
    success := false
    error := jsOrStr e5.message "Something went wrong"
    code := codeIfTruthy e5.code }

/-- A row of the users table (userRoutes.ts interface User; the store keeps
age nullable, timestamps as ISO strings). -/
structure StoredUser where
  id : String
  userName : String
  email : String
  age : Option Int
  createdAt : String
  updatedAt : String
deriving DecidableEq

/-- One parameterized SQL statement issued by the route handlers, abstracted
to its shape and parameters. -/
inductive DbStmt
  | countUsers
  | selectPage (limit offset : Nat)
  | selectById (id : String)
  | selectByEmail (email : String)
  | selectByEmailExcept (email id : String)
  | insertUser (u : StoredUser)
  | updateById (id : String) (fields : List String)
  | deleteById (id : String)
deriving DecidableEq

/-- A field-level validation failure (validationMiddleware.ts maps Joi
details to field and message, with double quotes stripped). -/
structure Violation where
  field : String
  message : String
deriving DecidableEq

/-- A create or update request body after JSON parsing: each declared field
either absent or a value of its schema type (type-level Joi failures such as
number.base are outside the modelled inputs). -/
structure UserBody where
  userName : Option String
  email : Option String
  age : Option Int
deriving DecidableEq

/-- The Joi string-format predicates the schemas delegate to: the email
grammar of Joi.string().email() and the UUID grammar of
Joi.string().uuid().  The pipelines are parametric in them. -/
structure JsLib where
  isEmail : String → Bool
  isUuid : String → Bool

/-- createUserSchema, name field: required string, min 2, max 100, with the
custom messages of the schema (Joi reports string.empty for an empty string
before the min rule). -/
def checkCreateName : Option String → List Violation
  | none => [⟨"name", "name is required"⟩]
  | some n =>
    if n = "" then [⟨"name", "Name is required"⟩]
    else if n.length < 2 then [⟨"name", "Name must be at least 2 characters"⟩]
    else if n.length > 100 then [⟨"name", "Name must be at most 100 characters"⟩]
    else []

/-- createUserSchema, email field: required string matching the email
grammar. -/
def checkCreateEmail (isEmail : String → Bool) : Option String → List Violation
  | none => [⟨"email", "email is required"⟩]
  | some s =>
    if s = "" then [⟨"email", "Email is required"⟩]
    else if isEmail s then []
    else [⟨"email", "Invalid email format"⟩]

/-- createUserSchema and updateUserSchema, age field: optional integer in
[0, 150]. -/
def checkAge : Option Int → List Violation
  | none => []
  | some a =>
    if a < 0 then [⟨"age", "Age must be at least 0"⟩]
    else if a > 150 then [⟨"age", "Age must be at most 150"⟩]
    else []

/-- createUserSchema: Joi validates with abortEarly: false, so the
violations of every declared field are aggregated in declaration order. -/
def createUserViolations (lib : JsLib) (b : UserBody) : List Violation :=
  checkCreateName b.userName ++ checkCreateEmail lib.isEmail b.email ++ checkAge b.age

/-- updateUserSchema, name field: optional, same bounds (default Joi
string.empty message since the schema declares none). -/
def checkUpdateName : Option String → List Violation
  | none => []
  | some n =>
    if n = "" then [⟨"name", "name is not allowed to be empty"⟩]
    else if n.length < 2 then [⟨"name", "Name must be at least 2 characters"⟩]
    else if n.length > 100 then [⟨"name", "Name must be at most 100 characters"⟩]
    else []

/-- updateUserSchema, email field: optional, email grammar. -/
def checkUpdateEmail (isEmail : String → Bool) : Option String → List Violation
  | none => []
  | some s =>
    if s = "" then [⟨"email", "email is not allowed to be empty"⟩]
    else if isEmail s then []
    else [⟨"email", "Invalid email format"⟩]

/-- updateUserSchema: all fields optional, aggregated without
short-circuiting. -/
def updateUserViolations (lib : JsLib) (b : UserBody) : List Violation :=
  checkUpdateName b.userName ++ checkUpdateEmail lib.isEmail b.email ++ checkAge b.age

/-- paginationSchema: page optional integer at least 1, limit optional
integer in [1, 100] (defaults are applied later by the route via parseInt
fallback, because validateRequest discards the normalized value). -/
def paginationViolations (pageQ limitQ : Option Nat) : List Violation :=
  (match pageQ with
    | none => []
    | some p => if p < 1 then [⟨"page", "page must be greater than or equal to 1"⟩] else []) ++
  (match limitQ with
    | none => []
    | some l =>
      if l < 1 then [⟨"limit", "limit must be greater than or equal to 1"⟩]
      else if l > 100 then [⟨"limit", "limit must be less than or equal to 100"⟩]
      else [])

/-- validateRequest throws a ValidationError whose message joins every
field message. -/
def validationErrorOf (vs : List Violation) : JsError :=
  mkValidationError ("Validation failed: " ++ String.intercalate ", " (vs.map (fun v => v.message)))

/-- The body of a successful route response. -/
structure PageInfo where
  page : Nat
  limit : Nat
  total : Nat
  totalPages : Nat
deriving DecidableEq

structure ListResult where
  data : List StoredUser
  pagination : PageInfo
deriving DecidableEq

inductive RespBody
  | user (u : StoredUser)
  | userList (r : ListResult)
  | deleted (message id : String)
deriving DecidableEq

/-- The outcome of a route handler: a success response, or an error value
thrown towards the boundary handler. -/
inductive Outcome
  | ok (status : Nat) (body : RespBody)
  | raised (e : JsError)
deriving DecidableEq

/-- The HTTP response after the boundary: either the success response or
the envelope produced by errorHandler. -/
inductive HttpResponse
  | success (status : Nat) (body : RespBody)
  | failure (e : ErrResponse)
deriving DecidableEq

/-- Feed a route outcome through the boundary error handler. -/
def finalize (env : String) : Outcome → HttpResponse
  | Outcome.ok s b => HttpResponse.success s b
  | Outcome.raised e => HttpResponse.failure (errorHandler env e)

def respStatus : HttpResponse → Nat
  | HttpResponse.success s _ => s
  | HttpResponse.failure e => e.statusCode

def respCode : HttpResponse → Option JsCode
  | HttpResponse.success _ _ => none
  | HttpResponse.failure e => e.code

/-- Math.ceil(total / limit) for a positive limit. -/
def ceilDiv (a b : Nat) : Nat := (a + b - 1) / b

/-- ORDER BY createdAt DESC: insertion sort, larger timestamps first. -/
def insertDesc (u : StoredUser) : List StoredUser → List StoredUser
  | [] => [u]
  | v :: vs => if v.createdAt ≤ u.createdAt then u :: v :: vs else v :: insertDesc u vs

def orderByCreatedAtDesc : List StoredUser → List StoredUser
  | [] => []
  | u :: us => insertDesc u (orderByCreatedAtDesc us)


/-- GET /api/users: after pagination validation, `parseInt(x) || default`
for page and limit, one COUNT query, one SELECT with ORDER BY createdAt
DESC LIMIT OFFSET, and `Math.ceil(total / limit)` pages.  A store failure is
caught and rethrown as a 500 DATABASE_ERROR HttpError. -/
def listUsersRoute (db : Except String (List StoredUser)) (pageQ limitQ : Option Nat) :
    Outcome × Except String (List StoredUser) × List DbStmt :=
  if paginationViolations pageQ limitQ = [] then
    match db with
    | Except.error e =>
      (Outcome.raised (mkHttpError "Failed to fetch users" 500 (some "DATABASE_ERROR")),
        Except.error e, [DbStmt.countUsers])
    | Except.ok store =>
      let page := jsOrNat pageQ 1
      let limit := jsOrNat limitQ 10
      let offset := (page - 1) * limit
      let total := store.length
      let rows := ((orderByCreatedAtDesc store).drop offset).take limit
      let totalPages := ceilDiv total limit
      (Outcome.ok 200 (RespBody.userList ⟨rows, ⟨page, limit, total, totalPages⟩⟩),
        Except.ok store, [DbStmt.countUsers, DbStmt.selectPage limit offset])
  else (Outcome.raised (validationErrorOf (paginationViolations pageQ limitQ)), db, [])

/-- GET /api/users/:id: UUID params validation, then SELECT by id; zero rows
raises NotFoundError, a store failure is rethrown as 500 DATABASE_ERROR. -/
def getUserByIdPipeline (lib : JsLib) (db : Except String (List StoredUser)) (id : String) :
    Outcome × Except String (List StoredUser) × List DbStmt :=
  if lib.isUuid id then
    match db with
    | Except.error e =>
      (Outcome.raised (mkHttpError "Failed to fetch user" 500 (some "DATABASE_ERROR")),
        Except.error e, [DbStmt.selectById id])
    | Except.ok store =>
      match store.filter (fun u => u.id == id) with
      | [] => (Outcome.raised (notFoundError "User not found"), Except.ok store,
          [DbStmt.selectById id])
      | u :: _ => (Outcome.ok 200 (RespBody.user u), Except.ok store, [DbStmt.selectById id])
  else
    (Outcome.raised (validationErrorOf [⟨"id", "Invalid ID format, must be UUID"⟩]), db, [])

/-- POST /api/users handler body (after validation): uniqueness pre-check by
email, then INSERT with `age || null` (every falsy age, including 0, becomes
null) and createdAt = updatedAt = now. -/
def createUserHandler (store : List StoredUser) (userName email : String) (age : Option Int)
    (freshId now : String) : Outcome × List StoredUser × List DbStmt :=
  if store.filter (fun u => u.email == email) = [] then
    let storedAge : Option Int := match age with
      | some a => if a = 0 then none else some a
      | none => none
    let u : StoredUser := ⟨freshId, userName, email, storedAge, now, now⟩
    (Outcome.ok 201 (RespBody.user u), store ++ [u],
      [DbStmt.selectByEmail email, DbStmt.insertUser u])
  else
    (Outcome.raised (conflictError "Email already exists"), store, [DbStmt.selectByEmail email])

/-- POST /api/users: createUserSchema validation throws before the handler
runs; a store failure in the handler is rethrown as 500 DATABASE_ERROR.
`freshId` is the uuidv4() value and `now` the single toISOString() value the
handler computes. -/
def createUserPipeline (lib : JsLib) (db : Except String (List StoredUser)) (body : UserBody)
    (freshId now : String) : Outcome × Except String (List StoredUser) × List DbStmt :=
  if createUserViolations lib body = [] then
    match db with
    | Except.error e =>
      (Outcome.raised (mkHttpError "Failed to create user" 500 (some "DATABASE_ERROR")),
        Except.error e, [DbStmt.selectByEmail (body.email.getD "")])
    | Except.ok store =>
      let r := createUserHandler store (body.userName.getD "") (body.email.getD "")
        body.age freshId now
      (r.1, Except.ok r.2.1, r.2.2)
  else (Outcome.raised (validationErrorOf (createUserViolations lib body)), db, [])

/-- The SET clause of the dynamic UPDATE: each supplied field overwrites the
row (age is written verbatim here, no falsy coercion), updatedAt := now. -/
def applyUpdate (u : StoredUser) (b : UserBody) (now : String) : StoredUser :=
  { u with
    userName := b.userName.getD u.userName
    email := b.email.getD u.email
    age := match b.age with
      | some a => some a
      | none => u.age
    updatedAt := now }

/-- The email uniqueness pre-check of the update handler runs only under
`if (email)`, i.e. when email is supplied and truthy (nonempty). -/
def emailConflictStmts (id : String) (b : UserBody) : List DbStmt :=
  match b.email with
  | some e => if e = "" then [] else [DbStmt.selectByEmailExcept e id]
  | none => []

def emailConflictHit (store : List StoredUser) (id : String) (b : UserBody) : Bool :=
  match b.email with
  | some e =>
    if e = "" then false
    else decide (store.filter (fun u => u.email == e && u.id != id) ≠ [])
  | none => false

/-- PUT /api/users/:id handler body (after validation): existence check,
conditional email-uniqueness check, dynamic field list (in the order name,
email, age), NO_UPDATES when empty, then the UPDATE with RETURNING *. -/
def updateUserHandler (store : List StoredUser) (id : String) (b : UserBody) (now : String) :
    Outcome × List StoredUser × List DbStmt :=
  if store.filter (fun u => u.id == id) = [] then
    (Outcome.raised (notFoundError "User not found"), store, [DbStmt.selectById id])
  else if emailConflictHit store id b then
    (Outcome.raised (conflictError "Email already exists"), store,
      [DbStmt.selectById id] ++ emailConflictStmts id b)
  else
    let fields := (if b.userName.isSome then ["name"] else []) ++
      (if b.email.isSome then ["email"] else []) ++
      (if b.age.isSome then ["age"] else [])
    if fields = [] then
      (Outcome.raised (mkHttpError "No fields to update" 400 (some "NO_UPDATES")), store,
        [DbStmt.selectById id] ++ emailConflictStmts id b)
    else
      let updated := store.map (fun u => if u.id == id then applyUpdate u b now else u)
      match updated.filter (fun u => u.id == id) with
      | [] => (Outcome.raised (notFoundError "User not found"), updated,
          [DbStmt.selectById id] ++ emailConflictStmts id b ++ [DbStmt.updateById id fields])
      | u :: _ => (Outcome.ok 200 (RespBody.user u), updated,
          [DbStmt.selectById id] ++ emailConflictStmts id b ++ [DbStmt.updateById id fields])

/-- PUT /api/users/:id: UUID params validation, then updateUserSchema body
validation, then the handler; a store failure is rethrown as 500
DATABASE_ERROR. -/
def updateUserPipeline (lib : JsLib) (db : Except String (List StoredUser)) (id : String)
    (b : UserBody) (now : String) : Outcome × Except String (List StoredUser) × List DbStmt :=
  if lib.isUuid id then
    if updateUserViolations lib b = [] then
      match db with
      | Except.error e =>
        (Outcome.raised (mkHttpError "Failed to update user" 500 (some "DATABASE_ERROR")),
          Except.error e, [DbStmt.selectById id])
      | Except.ok store =>
        let r := updateUserHandler store id b now
        (r.1, Except.ok r.2.1, r.2.2)
    else (Outcome.raised (validationErrorOf (updateUserViolations lib b)), db, [])
  else
    (Outcome.raised (validationErrorOf [⟨"id", "Invalid ID format, must be UUID"⟩]), db, [])

/-- DELETE /api/users/:id: UUID params validation, then DELETE with
RETURNING id; zero returned rows raise NotFoundError, a store failure is
rethrown as 500 DATABASE_ERROR. -/
def deleteUserPipeline (lib : JsLib) (db : Except String (List StoredUser)) (id : String) :
    Outcome × Except String (List StoredUser) × List DbStmt :=
  if lib.isUuid id then
    match db with
    | Except.error e =>
      (Outcome.raised (mkHttpError "Failed to delete user" 500 (some "DATABASE_ERROR")),
        Except.error e, [DbStmt.deleteById id])
    | Except.ok store =>
      if store.filter (fun u => u.id == id) = [] then
        (Outcome.raised (notFoundError "User not found"), Except.ok store,
          [DbStmt.deleteById id])
      else
        (Outcome.ok 200 (RespBody.deleted "User deleted successfully" id),
          Except.ok (store.filter (fun u => u.id != id)), [DbStmt.deleteById id])
  else
    (Outcome.raised (validationErrorOf [⟨"id", "Invalid ID format, must be UUID"⟩]), db, [])

/-- res.json serialization of a User row, key order as in the row; age null
when absent (string escaping not modelled, braces written as x7b/x7d). -/
def jsonStr (s : String) : String := "\"" ++ s ++ "\""

def ageJson : Option Int → String
  | none => "null"
  | some a => toString a

def userToJson (u : StoredUser) : String :=
  "\x7b\"id\":" ++ jsonStr u.id ++ ",\"name\":" ++ jsonStr u.userName ++
    ",\"email\":" ++ jsonStr u.email ++ ",\"age\":" ++ ageJson u.age ++
    ",\"createdAt\":" ++ jsonStr u.createdAt ++ ",\"updatedAt\":" ++ jsonStr u.updatedAt ++ "\x7d"

/-- The serialized body of a single-user success outcome. -/
def outcomeJson : Outcome → Option String
  | Outcome.ok _ (RespBody.user u) => some (userToJson u)
  | _ => none

/-- Concrete instantiation of the Joi format predicates used by witnesses
and counterexamples: one recognized email, every id accepted as UUID. -/
def demoLib : JsLib := ⟨fun s => s = "a@b", fun _ => true⟩

def demoUser : StoredUser := ⟨"id-1", "Demo", "a@b", some 30, "T3", "T3"⟩

def fiveUsers : List StoredUser :=
  [⟨"id-1", "User 1", "u1@x", some 21, "T1", "T1"⟩,
   ⟨"id-2", "User 2", "u2@x", some 22, "T2", "T2"⟩,
   ⟨"id-3", "User 3", "u3@x", some 23, "T3", "T3"⟩,
   ⟨"id-4", "User 4", "u4@x", some 24, "T4", "T4"⟩,
   ⟨"id-5", "User 5", "u5@x", some 25, "T5", "T5"⟩]

theorem length_insertDesc (u : StoredUser) (l : List StoredUser) :
    (insertDesc u l).length = l.length + 1 := by
  induction l with
  | nil => rfl
  | cons v vs ih =>
    simp only [insertDesc]
    split
    · simp
    · simp [ih]

theorem length_orderByCreatedAtDesc (l : List StoredUser) :
    (orderByCreatedAtDesc l).length = l.length := by
  induction l with
  | nil => rfl
  | cons u us ih => simp [orderByCreatedAtDesc, length_insertDesc, ih]

theorem filter_ne_nil_of_mem {p : StoredUser → Bool} {l : List StoredUser} {u : StoredUser}
    (hu : u ∈ l) (hp : p u = true) : l.filter p ≠ [] := by
  intro h
  have hm : u ∈ l.filter p := List.mem_filter.mpr ⟨hu, hp⟩
  rw [h] at hm
  exact List.not_mem_nil u hm

theorem filter_eq_nil_of_forall {p : StoredUser → Bool} {l : List StoredUser}
    (h : ∀ u ∈ l, ¬p u = true) : l.filter p = [] :=
  List.filter_eq_nil_iff.mpr h

/-- On any HttpError with a nonzero status and a nonempty code, the boundary
responds with that status and code but with the constant message, because
the object spread at the top of errorHandler drops the non-enumerable
`message` property. -/
theorem errorHandler_httpError (env m : String) (sc : Nat) (c : String)
    (hsc : sc ≠ 0) (hc : c ≠ "") :
    errorHandler env (mkHttpError m sc (some c)) =
      ⟨sc, false, "Something went wrong", some (JsCode.str c)⟩ := by
  simp [errorHandler, mkHttpError, spreadErr, jsOrNat, jsOrStr, codeIfTruthy, hsc, hc]

/-- Claim C1: false on the code.  A recognized AppError variant reaching the
boundary (here ConflictError with message Email already exists) keeps its
statusCode and code, but the response message is the constant Something went
wrong, not the verbatim message: `let error = { ...err }` drops the
non-enumerable `message` property, so `error.message || 'Something went
wrong'` always falls back.  The repository's own integration test expects
the body error of the duplicate-email 409 to contain "already exists". -/
theorem errorHandler_drops_httpError_message :
    errorHandler "development" (conflictError "Email already exists") =
      ⟨409, false, "Something went wrong", some (JsCode.str "CONFLICT")⟩ ∧
    (errorHandler "development" (conflictError "Email already exists")).error ≠
      "Email already exists" ∧
    (conflictError "Email already exists").message = "Email already exists" := by
  decide

/-- Claim C3: an input whose email fails the email grammar yields a
non-empty violation list containing a violation on field email; the name and
age rules are still evaluated and their violations all appear in the
aggregate (no short-circuit); and the create pipeline issues no store
statement and leaves the store untouched. -/
theorem validator_email_violation (lib : JsLib) (db : Except String (List StoredUser))
    (body : UserBody) (freshId now e : String)
    (he : body.email = some e) (hbad : lib.isEmail e = false) :
    createUserViolations lib body ≠ [] ∧
    (∃ v ∈ createUserViolations lib body, v.field = "email") ∧
    (∀ v ∈ checkCreateName body.userName, v ∈ createUserViolations lib body) ∧
    (∀ v ∈ checkAge body.age, v ∈ createUserViolations lib body) ∧
    (createUserPipeline lib db body freshId now).2.2 = [] ∧
    (createUserPipeline lib db body freshId now).2.1 = db := by
  have hev : checkCreateEmail lib.isEmail body.email ≠ [] := by
    rw [he]
    by_cases h0 : e = "" <;> simp [checkCreateEmail, h0, hbad]
  have hvne : createUserViolations lib body ≠ [] := by
    unfold createUserViolations
    intro h
    rcases List.append_eq_nil.mp h with ⟨h12, _⟩
    rcases List.append_eq_nil.mp h12 with ⟨_, hB⟩
    exact hev hB
  refine ⟨hvne, ?_, ?_, ?_, ?_, ?_⟩
  · unfold createUserViolations
    rw [he]
    by_cases h0 : e = ""
    · exact ⟨⟨"email", "Email is required"⟩, by simp [checkCreateEmail, h0, hbad], rfl⟩
    · exact ⟨⟨"email", "Invalid email format"⟩, by simp [checkCreateEmail, h0, hbad], rfl⟩
  · intro v hv
    exact List.mem_append.mpr (Or.inl (List.mem_append.mpr (Or.inl hv)))
  · intro v hv
    exact List.mem_append.mpr (Or.inr hv)
  · simp [createUserPipeline, hvne]
  · simp [createUserPipeline, hvne]

/-- Witness for C3 at a concrete invalid email. -/
theorem validator_email_violation_witness :
    (⟨some "Jo", some "bad", none⟩ : UserBody).email = some "bad" ∧
    demoLib.isEmail "bad" = false ∧
    (createUserViolations demoLib ⟨some "Jo", some "bad", none⟩ ≠ [] ∧
      (∃ v ∈ createUserViolations demoLib ⟨some "Jo", some "bad", none⟩, v.field = "email") ∧
      (∀ v ∈ checkCreateName (⟨some "Jo", some "bad", none⟩ : UserBody).userName,
        v ∈ createUserViolations demoLib ⟨some "Jo", some "bad", none⟩) ∧
      (∀ v ∈ checkAge (⟨some "Jo", some "bad", none⟩ : UserBody).age,
        v ∈ createUserViolations demoLib ⟨some "Jo", some "bad", none⟩) ∧
      (createUserPipeline demoLib (Except.ok []) ⟨some "Jo", some "bad", none⟩ "id-9" "T9").2.2 = [] ∧
      (createUserPipeline demoLib (Except.ok []) ⟨some "Jo", some "bad", none⟩ "id-9" "T9").2.1 =
        Except.ok []) :=
  ⟨rfl, by decide,
    validator_email_violation demoLib (Except.ok []) ⟨some "Jo", some "bad", none⟩ "id-9" "T9"
      "bad" rfl (by decide)⟩

/-- Claim C4: with validated page and limit, listing succeeds with the
drop/take slice at offset (page-1)*limit, total = store size, totalPages =
ceil(total/limit); a page beyond the data yields an empty array, still a 200
success. -/
theorem listUsers_pagination (store : List StoredUser) (p l : Nat)
    (hp : 1 ≤ p) (hl : 1 ≤ l) (hl100 : l ≤ 100) :
    ∃ lr : ListResult,
      (listUsersRoute (Except.ok store) (some p) (some l)).1 =
        Outcome.ok 200 (RespBody.userList lr) ∧
      lr.data = ((orderByCreatedAtDesc store).drop ((p - 1) * l)).take l ∧
      lr.pagination.total = store.length ∧
      lr.pagination.totalPages = ceilDiv store.length l ∧
      lr.data.length = min l (store.length - (p - 1) * l) ∧
      (store.length ≤ (p - 1) * l → lr.data = []) := by
  have hpv : paginationViolations (some p) (some l) = [] := by
    have h1 : ¬p < 1 := by omega
    have h2 : ¬l < 1 := by omega
    have h3 : ¬l > 100 := by omega
    simp [paginationViolations, h1, h2, h3]
  have hp0 : p ≠ 0 := by omega
  have hl0 : l ≠ 0 := by omega
  refine ⟨⟨((orderByCreatedAtDesc store).drop ((p - 1) * l)).take l,
      ⟨p, l, store.length, ceilDiv store.length l⟩⟩, ?_, rfl, rfl, rfl, ?_, ?_⟩
  · simp [listUsersRoute, hpv, jsOrNat, hp0, hl0]
  · simp only [List.length_take, List.length_drop, length_orderByCreatedAtDesc]
  · intro hle
    have h0 : store.length - (p - 1) * l = 0 := by omega
    apply List.length_eq_zero.mp
    simp only [List.length_take, List.length_drop, length_orderByCreatedAtDesc, h0]
    omega

/-- Witness for C4: five stored users, page 1, limit 2 give two rows, total
5, three pages. -/
theorem listUsers_pagination_witness :
    ∃ lr : ListResult,
      (listUsersRoute (Except.ok fiveUsers) (some 1) (some 2)).1 =
        Outcome.ok 200 (RespBody.userList lr) ∧
      lr.data.length = 2 ∧ lr.pagination.total = 5 ∧ lr.pagination.totalPages = 3 := by
  obtain ⟨lr, h1, _, h3, h4, h5, _⟩ :=
    listUsers_pagination fiveUsers 1 2 (by decide) (by decide) (by decide)
  refine ⟨lr, h1, ?_, ?_, ?_⟩
  · rw [h5]; decide
  · rw [h3]; decide
  · rw [h4]; decide

/-- Claim C5: a POST whose email is already stored raises ConflictError,
the boundary responds 409 with code CONFLICT, the store is unchanged and no
INSERT statement is issued (the conflict precedes the insert). -/
theorem create_conflict (lib : JsLib) (env : String) (store : List StoredUser) (body : UserBody)
    (freshId now e : String)
    (hv : createUserViolations lib body = [])
    (he : body.email = some e)
    (u0 : StoredUser) (hu0 : u0 ∈ store) (hu0e : u0.email = e) :
    respStatus (finalize env (createUserPipeline lib (Except.ok store) body freshId now).1) = 409 ∧
    respCode (finalize env (createUserPipeline lib (Except.ok store) body freshId now).1) =
      some (JsCode.str "CONFLICT") ∧
    (createUserPipeline lib (Except.ok store) body freshId now).2.1 = Except.ok store ∧
    (∀ u : StoredUser,
      DbStmt.insertUser u ∉ (createUserPipeline lib (Except.ok store) body freshId now).2.2) := by
  have hfil : store.filter (fun u => u.email == e) ≠ [] :=
    filter_ne_nil_of_mem hu0 (by simp [hu0e])
  have hkey : createUserPipeline lib (Except.ok store) body freshId now =
      (Outcome.raised (conflictError "Email already exists"), Except.ok store,
        [DbStmt.selectByEmail e]) := by
    simp [createUserPipeline, createUserHandler, hv, he, hfil]
  have hEH := errorHandler_httpError env "Email already exists" 409 "CONFLICT"
    (by decide) (by decide)
  refine ⟨?_, ?_, by rw [hkey], ?_⟩
  · rw [hkey]
    simp [finalize, conflictError, hEH, respStatus]
  · rw [hkey]
    simp [finalize, conflictError, hEH, respCode]
  · intro u hmem
    rw [hkey] at hmem
    simp at hmem

/-- Witness for C5: creating a second user with the stored email a-at-b. -/
theorem create_conflict_witness :
    createUserViolations demoLib ⟨some "Jo", some "a@b", none⟩ = [] ∧
    demoUser ∈ [demoUser] ∧ demoUser.email = "a@b" ∧
    (respStatus (finalize "development"
        (createUserPipeline demoLib (Except.ok [demoUser]) ⟨some "Jo", some "a@b", none⟩
          "id-9" "T9").1) = 409 ∧
      respCode (finalize "development"
        (createUserPipeline demoLib (Except.ok [demoUser]) ⟨some "Jo", some "a@b", none⟩
          "id-9" "T9").1) = some (JsCode.str "CONFLICT") ∧
      (createUserPipeline demoLib (Except.ok [demoUser]) ⟨some "Jo", some "a@b", none⟩
        "id-9" "T9").2.1 = Except.ok [demoUser] ∧
      (∀ u : StoredUser,
        DbStmt.insertUser u ∉ (createUserPipeline demoLib (Except.ok [demoUser])
          ⟨some "Jo", some "a@b", none⟩ "id-9" "T9").2.2)) :=
  ⟨by decide, by decide, by decide,
    create_conflict demoLib "development" [demoUser] ⟨some "Jo", some "a@b", none⟩
      "id-9" "T9" "a@b" (by decide) rfl demoUser (by decide) (by decide)⟩

/-- Claim C7: a valid create with a fresh generated id succeeds with 201,
the returned user carries exactly that id (distinct from every stored id)
and identical createdAt and updatedAt timestamps.  The uuidv4() call is
modelled as the freshId input; its collision-freedom is the hypothesis. -/
theorem create_fresh_id (lib : JsLib) (store : List StoredUser) (body : UserBody)
    (freshId now n e : String)
    (hv : createUserViolations lib body = [])
    (hn : body.userName = some n) (he : body.email = some e)
    (hid : ∀ u ∈ store, u.id ≠ freshId)
    (hem : ∀ u ∈ store, u.email ≠ e) :
    ∃ u : StoredUser,
      (createUserPipeline lib (Except.ok store) body freshId now).1 =
        Outcome.ok 201 (RespBody.user u) ∧
      u.id = freshId ∧
      (∀ v ∈ store, v.id ≠ u.id) ∧
      u.createdAt = now ∧ u.updatedAt = now ∧ u.createdAt = u.updatedAt := by
  have hfil : store.filter (fun u => u.email == e) = [] :=
    filter_eq_nil_of_forall (fun u hu => by simp [hem u hu])
  refine ⟨⟨freshId, n, e,
      (match body.age with
        | some a => if a = 0 then none else some a
        | none => none), now, now⟩, ?_, rfl, ?_, rfl, rfl, rfl⟩
  · simp [createUserPipeline, createUserHandler, hv, hn, he, hfil]
  · intro v hv'
    exact hid v hv'

/-- Witness for C7: creating in the empty store. -/
theorem create_fresh_id_witness :
    createUserViolations demoLib ⟨some "Jo", some "a@b", none⟩ = [] ∧
    (∃ u : StoredUser,
      (createUserPipeline demoLib (Except.ok []) ⟨some "Jo", some "a@b", none⟩
        "id-7" "T7").1 = Outcome.ok 201 (RespBody.user u) ∧
      u.id = "id-7" ∧
      (∀ v ∈ ([] : List StoredUser), v.id ≠ u.id) ∧
      u.createdAt = "T7" ∧ u.updatedAt = "T7" ∧ u.createdAt = u.updatedAt) :=
  ⟨by decide,
    create_fresh_id demoLib [] ⟨some "Jo", some "a@b", none⟩ "id-7" "T7" "Jo" "a@b"
      (by decide) rfl rfl (by simp) (by simp)⟩

/-- Claim C9: the insert writes `age || null`, so a validated age of exactly
0 is stored and returned as null, while any age in [1, 150] is stored
unchanged. -/
theorem create_age_zero_null (lib : JsLib) (store : List StoredUser)
    (n e freshId now : String)
    (hv : createUserViolations lib ⟨some n, some e, some 0⟩ = [])
    (hem : ∀ u ∈ store, u.email ≠ e) :
    (∃ u : StoredUser,
      (createUserPipeline lib (Except.ok store) ⟨some n, some e, some 0⟩ freshId now).1 =
        Outcome.ok 201 (RespBody.user u) ∧
      u.age = none ∧
      (createUserPipeline lib (Except.ok store) ⟨some n, some e, some 0⟩ freshId now).2.1 =
        Except.ok (store ++ [u])) ∧
    (∀ a : Int, 1 ≤ a → a ≤ 150 →
      ∃ u : StoredUser,
        (createUserPipeline lib (Except.ok store) ⟨some n, some e, some a⟩ freshId now).1 =
          Outcome.ok 201 (RespBody.user u) ∧
        u.age = some a) := by
  have hfil : store.filter (fun u => u.email == e) = [] :=
    filter_eq_nil_of_forall (fun u hu => by simp [hem u hu])
  have hparts : checkCreateName (some n) = [] ∧ checkCreateEmail lib.isEmail (some e) = [] := by
    simp only [createUserViolations] at hv
    rcases List.append_eq_nil.mp hv with ⟨h12, _⟩
    rcases List.append_eq_nil.mp h12 with ⟨hA, hB⟩
    exact ⟨hA, hB⟩
  constructor
  · refine ⟨⟨freshId, n, e, none, now, now⟩, ?_, rfl, ?_⟩
    · simp [createUserPipeline, createUserHandler, hv, hfil]
    · simp [createUserPipeline, createUserHandler, hv, hfil]
  · intro a ha1 ha150
    have ha0 : a ≠ 0 := by omega
    have hage : checkAge (some a) = [] := by
      have h1 : ¬a < 0 := by omega
      have h2 : ¬a > 150 := by omega
      simp [checkAge, h1, h2]
    have hv' : createUserViolations lib ⟨some n, some e, some a⟩ = [] := by
      simp [createUserViolations, hparts.1, hparts.2, hage]
    refine ⟨⟨freshId, n, e, some a, now, now⟩, ?_, rfl⟩
    simp [createUserPipeline, createUserHandler, hv', hfil, ha0]

/-- Witness for C9: age 0 stored as null, age 30 stored as 30. -/
theorem create_age_zero_null_witness :
    createUserViolations demoLib ⟨some "Jo", some "a@b", some 0⟩ = [] ∧
    ((∃ u : StoredUser,
      (createUserPipeline demoLib (Except.ok []) ⟨some "Jo", some "a@b", some 0⟩
        "id-7" "T7").1 = Outcome.ok 201 (RespBody.user u) ∧
      u.age = none ∧
      (createUserPipeline demoLib (Except.ok []) ⟨some "Jo", some "a@b", some 0⟩
        "id-7" "T7").2.1 = Except.ok ([] ++ [u])) ∧
    (∀ a : Int, 1 ≤ a → a ≤ 150 →
      ∃ u : StoredUser,
        (createUserPipeline demoLib (Except.ok []) ⟨some "Jo", some "a@b", some a⟩
          "id-7" "T7").1 = Outcome.ok 201 (RespBody.user u) ∧
        u.age = some a)) :=
  ⟨by decide,
    create_age_zero_null demoLib [] "Jo" "a@b" "id-7" "T7" (by decide) (by simp)⟩

/-- Claim C2 counterexample: with one user stored, an empty update body is
rejected 400 NO_UPDATES, yet the statement list of that request is not empty
(the existence SELECT has already been issued), refuting the claim that the
rejection happens before any store access. -/
theorem update_empty_body_counterexample :
    respStatus (finalize "development"
      (updateUserPipeline demoLib (Except.ok [demoUser]) "id-1" ⟨none, none, none⟩ "T9").1) =
        400 ∧
    respCode (finalize "development"
      (updateUserPipeline demoLib (Except.ok [demoUser]) "id-1" ⟨none, none, none⟩ "T9").1) =
        some (JsCode.str "NO_UPDATES") ∧
    (updateUserPipeline demoLib (Except.ok [demoUser]) "id-1" ⟨none, none, none⟩ "T9").2.2 ≠
      [] := by
  decide

/-- Claim C2 (amended): a validated PUT with an existing id and zero
supplied mutable fields fails 400 NO_UPDATES; the rejection happens after
the existence check (exactly the SELECT by id has been issued) and before
any write, so the store is unchanged and no UPDATE statement runs. -/
theorem update_empty_body_noUpdates (lib : JsLib) (env : String) (store : List StoredUser)
    (id now : String)
    (hu : lib.isUuid id = true)
    (u0 : StoredUser) (hu0 : u0 ∈ store) (hu0id : u0.id = id) :
    respStatus (finalize env
      (updateUserPipeline lib (Except.ok store) id ⟨none, none, none⟩ now).1) = 400 ∧
    respCode (finalize env
      (updateUserPipeline lib (Except.ok store) id ⟨none, none, none⟩ now).1) =
      some (JsCode.str "NO_UPDATES") ∧
    (updateUserPipeline lib (Except.ok store) id ⟨none, none, none⟩ now).2.1 =
      Except.ok store ∧
    (updateUserPipeline lib (Except.ok store) id ⟨none, none, none⟩ now).2.2 =
      [DbStmt.selectById id] ∧
    (∀ i fs, DbStmt.updateById i fs ∉
      (updateUserPipeline lib (Except.ok store) id ⟨none, none, none⟩ now).2.2) := by
  have hfil : store.filter (fun u => u.id == id) ≠ [] :=
    filter_ne_nil_of_mem hu0 (by simp [hu0id])
  have hkey : updateUserPipeline lib (Except.ok store) id ⟨none, none, none⟩ now =
      (Outcome.raised (mkHttpError "No fields to update" 400 (some "NO_UPDATES")),
        Except.ok store, [DbStmt.selectById id]) := by
    simp [updateUserPipeline, updateUserHandler, updateUserViolations, checkUpdateName,
      checkUpdateEmail, checkAge, emailConflictHit, emailConflictStmts, hu, hfil]
  have hEH := errorHandler_httpError env "No fields to update" 400 "NO_UPDATES"
    (by decide) (by decide)
  refine ⟨?_, ?_, by rw [hkey], by rw [hkey], ?_⟩
  · rw [hkey]
    simp [finalize, hEH, respStatus]
  · rw [hkey]
    simp [finalize, hEH, respCode]
  · intro i fs hmem
    rw [hkey] at hmem
    simp at hmem

/-- Witness for the amended C2 at the concrete one-user store. -/
theorem update_empty_body_noUpdates_witness :
    demoLib.isUuid "id-1" = true ∧ demoUser ∈ [demoUser] ∧ demoUser.id = "id-1" ∧
    (respStatus (finalize "development"
      (updateUserPipeline demoLib (Except.ok [demoUser]) "id-1" ⟨none, none, none⟩ "T8").1) =
        400 ∧
    respCode (finalize "development"
      (updateUserPipeline demoLib (Except.ok [demoUser]) "id-1" ⟨none, none, none⟩ "T8").1) =
      some (JsCode.str "NO_UPDATES") ∧
    (updateUserPipeline demoLib (Except.ok [demoUser]) "id-1" ⟨none, none, none⟩ "T8").2.1 =
      Except.ok [demoUser] ∧
    (updateUserPipeline demoLib (Except.ok [demoUser]) "id-1" ⟨none, none, none⟩ "T8").2.2 =
      [DbStmt.selectById "id-1"] ∧
    (∀ i fs, DbStmt.updateById i fs ∉
      (updateUserPipeline demoLib (Except.ok [demoUser]) "id-1" ⟨none, none, none⟩ "T8").2.2)) :=
  ⟨by decide, by decide, by decide,
    update_empty_body_noUpdates demoLib "development" [demoUser] "id-1" "T8" (by decide)
      demoUser (by decide) (by decide)⟩

/-- Claim C6 counterexample: a store failure on the list route surfaces as
500 with code DATABASE_ERROR, not INTERNAL_SERVER_ERROR: the route catch
block wraps the failure in an HttpError carrying DATABASE_ERROR. -/
theorem store_failure_code_counterexample :
    respStatus (finalize "production"
      (listUsersRoute (Except.error "connection refused") none none).1) = 500 ∧
    respCode (finalize "production"
      (listUsersRoute (Except.error "connection refused") none none).1) =
      some (JsCode.str "DATABASE_ERROR") ∧
    respCode (finalize "production"
      (listUsersRoute (Except.error "connection refused") none none).1) ≠
      some (JsCode.str "INTERNAL_SERVER_ERROR") := by
  decide

/-- Claim C6 (amended): a store-level failure during any user operation
(list, get by id, create, update, delete) surfaces as a generic 500 whose
code is DATABASE_ERROR, in every environment and for every input that
passes the operation's validation: each route's catch block wraps the
failure in an HttpError carrying exactly that code, so no other code is
ever produced for a store failure. -/
theorem store_failure_database_error (lib : JsLib) (env msg : String)
    (pageQ limitQ : Option Nat) (id : String) (body b : UserBody) (freshId now : String)
    (hpag : paginationViolations pageQ limitQ = [])
    (hid : lib.isUuid id = true)
    (hcv : createUserViolations lib body = [])
    (huv : updateUserViolations lib b = []) :
    (respStatus (finalize env (listUsersRoute (Except.error msg) pageQ limitQ).1) = 500 ∧
      respCode (finalize env (listUsersRoute (Except.error msg) pageQ limitQ).1) =
        some (JsCode.str "DATABASE_ERROR")) ∧
    (respStatus (finalize env (getUserByIdPipeline lib (Except.error msg) id).1) = 500 ∧
      respCode (finalize env (getUserByIdPipeline lib (Except.error msg) id).1) =
        some (JsCode.str "DATABASE_ERROR")) ∧
    (respStatus (finalize env
        (createUserPipeline lib (Except.error msg) body freshId now).1) = 500 ∧
      respCode (finalize env (createUserPipeline lib (Except.error msg) body freshId now).1) =
        some (JsCode.str "DATABASE_ERROR")) ∧
    (respStatus (finalize env (updateUserPipeline lib (Except.error msg) id b now).1) = 500 ∧
      respCode (finalize env (updateUserPipeline lib (Except.error msg) id b now).1) =
        some (JsCode.str "DATABASE_ERROR")) ∧
    (respStatus (finalize env (deleteUserPipeline lib (Except.error msg) id).1) = 500 ∧
      respCode (finalize env (deleteUserPipeline lib (Except.error msg) id).1) =
        some (JsCode.str "DATABASE_ERROR")) := by
  have hL := errorHandler_httpError env "Failed to fetch users" 500 "DATABASE_ERROR"
    (by decide) (by decide)
  have hG := errorHandler_httpError env "Failed to fetch user" 500 "DATABASE_ERROR"
    (by decide) (by decide)
  have hC := errorHandler_httpError env "Failed to create user" 500 "DATABASE_ERROR"
    (by decide) (by decide)
  have hU := errorHandler_httpError env "Failed to update user" 500 "DATABASE_ERROR"
    (by decide) (by decide)
  have hD := errorHandler_httpError env "Failed to delete user" 500 "DATABASE_ERROR"
    (by decide) (by decide)
  refine ⟨⟨?_, ?_⟩, ⟨?_, ?_⟩, ⟨?_, ?_⟩, ⟨?_, ?_⟩, ⟨?_, ?_⟩⟩ <;>
    simp [listUsersRoute, getUserByIdPipeline, createUserPipeline, updateUserPipeline,
      deleteUserPipeline, hpag, hid, hcv, huv, finalize, respStatus, respCode,
      hL, hG, hC, hU, hD]

/-- Witness for the amended C6: a failing store behind each of the five
operations, all validations passing. -/
theorem store_failure_database_error_witness :
    paginationViolations none none = [] ∧
    demoLib.isUuid "id-1" = true ∧
    createUserViolations demoLib ⟨some "Jo", some "a@b", none⟩ = [] ∧
    updateUserViolations demoLib ⟨none, none, none⟩ = [] ∧
    ((respStatus (finalize "production"
        (listUsersRoute (Except.error "connection timeout") none none).1) = 500 ∧
      respCode (finalize "production"
        (listUsersRoute (Except.error "connection timeout") none none).1) =
        some (JsCode.str "DATABASE_ERROR")) ∧
    (respStatus (finalize "production"
        (getUserByIdPipeline demoLib (Except.error "connection timeout") "id-1").1) = 500 ∧
      respCode (finalize "production"
        (getUserByIdPipeline demoLib (Except.error "connection timeout") "id-1").1) =
        some (JsCode.str "DATABASE_ERROR")) ∧
    (respStatus (finalize "production"
        (createUserPipeline demoLib (Except.error "connection timeout")
          ⟨some "Jo", some "a@b", none⟩ "id-9" "T9").1) = 500 ∧
      respCode (finalize "production"
        (createUserPipeline demoLib (Except.error "connection timeout")
          ⟨some "Jo", some "a@b", none⟩ "id-9" "T9").1) =
        some (JsCode.str "DATABASE_ERROR")) ∧
    (respStatus (finalize "production"
        (updateUserPipeline demoLib (Except.error "connection timeout") "id-1"
          ⟨none, none, none⟩ "T9").1) = 500 ∧
      respCode (finalize "production"
        (updateUserPipeline demoLib (Except.error "connection timeout") "id-1"
          ⟨none, none, none⟩ "T9").1) =
        some (JsCode.str "DATABASE_ERROR")) ∧
    (respStatus (finalize "production"
        (deleteUserPipeline demoLib (Except.error "connection timeout") "id-1").1) = 500 ∧
      respCode (finalize "production"
        (deleteUserPipeline demoLib (Except.error "connection timeout") "id-1").1) =
        some (JsCode.str "DATABASE_ERROR"))) :=
  ⟨rfl, by decide, by decide, by decide,
    store_failure_database_error demoLib "production" "connection timeout" none none "id-1"
      ⟨some "Jo", some "a@b", none⟩ ⟨none, none, none⟩ "id-9" "T9"
      rfl (by decide) (by decide) (by decide)⟩

/-- Claim C8: with the id stored, the read returns 200 with a user, leaves
the store exactly as it was, and a second execution against the resulting
store is identical, including the serialized User JSON. -/
theorem getUser_idempotent (lib : JsLib) (store : List StoredUser) (id : String)
    (hu : lib.isUuid id = true)
    (u0 : StoredUser) (hu0 : u0 ∈ store) (hu0id : u0.id = id) :
    (getUserByIdPipeline lib (Except.ok store) id).2.1 = Except.ok store ∧
    getUserByIdPipeline lib ((getUserByIdPipeline lib (Except.ok store) id).2.1) id =
      getUserByIdPipeline lib (Except.ok store) id ∧
    (∃ u : StoredUser,
      (getUserByIdPipeline lib (Except.ok store) id).1 = Outcome.ok 200 (RespBody.user u) ∧
      outcomeJson (getUserByIdPipeline lib (Except.ok store) id).1 = some (userToJson u) ∧
      outcomeJson
        (getUserByIdPipeline lib ((getUserByIdPipeline lib (Except.ok store) id).2.1) id).1 =
        some (userToJson u)) := by
  have hfil : store.filter (fun u => u.id == id) ≠ [] :=
    filter_ne_nil_of_mem hu0 (by simp [hu0id])
  cases hF : store.filter (fun u => u.id == id) with
  | nil => exact absurd hF hfil
  | cons u rest =>
    have hkey : getUserByIdPipeline lib (Except.ok store) id =
        (Outcome.ok 200 (RespBody.user u), Except.ok store, [DbStmt.selectById id]) := by
      simp [getUserByIdPipeline, hu, hF]
    refine ⟨by rw [hkey], ?_, u, by rw [hkey], ?_, ?_⟩
    · rw [hkey]
      exact hkey
    · rw [hkey]
      simp [outcomeJson]
    · rw [hkey]
      show outcomeJson (getUserByIdPipeline lib (Except.ok store) id).1 = some (userToJson u)
      rw [hkey]
      simp [outcomeJson]

/-- Witness for C8 on the one-user store. -/
theorem getUser_idempotent_witness :
    demoLib.isUuid "id-1" = true ∧ demoUser ∈ [demoUser] ∧ demoUser.id = "id-1" ∧
    ((getUserByIdPipeline demoLib (Except.ok [demoUser]) "id-1").2.1 =
      Except.ok [demoUser] ∧
    getUserByIdPipeline demoLib
        ((getUserByIdPipeline demoLib (Except.ok [demoUser]) "id-1").2.1) "id-1" =
      getUserByIdPipeline demoLib (Except.ok [demoUser]) "id-1" ∧
    (∃ u : StoredUser,
      (getUserByIdPipeline demoLib (Except.ok [demoUser]) "id-1").1 =
        Outcome.ok 200 (RespBody.user u) ∧
      outcomeJson (getUserByIdPipeline demoLib (Except.ok [demoUser]) "id-1").1 =
        some (userToJson u) ∧
      outcomeJson (getUserByIdPipeline demoLib
        ((getUserByIdPipeline demoLib (Except.ok [demoUser]) "id-1").2.1) "id-1").1 =
        some (userToJson u))) :=
  ⟨by decide, by decide, by decide,
    getUser_idempotent demoLib [demoUser] "id-1" (by decide) demoUser (by decide) (by decide)⟩

/-- Claim C10 counterexample: against a nonexistent id, a body that fails
update validation (a malformed email) is answered 400 VALIDATION_ERROR with
no statement issued, not 404: the response is not independent of the body. -/
theorem update_nonexistent_counterexample :
    respStatus (finalize "development"
      (updateUserPipeline demoLib (Except.ok []) "id-9" ⟨none, some "bad", none⟩ "T9").1) =
        400 ∧
    respStatus (finalize "development"
      (updateUserPipeline demoLib (Except.ok []) "id-9" ⟨none, some "bad", none⟩ "T9").1) ≠
        404 ∧
    respCode (finalize "development"
      (updateUserPipeline demoLib (Except.ok []) "id-9" ⟨none, some "bad", none⟩ "T9").1) =
      some (JsCode.str "VALIDATION_ERROR") ∧
    (updateUserPipeline demoLib (Except.ok []) "id-9" ⟨none, some "bad", none⟩ "T9").2.2 =
      [] := by
  decide

/-- Claim C10 (amended): for every body that passes update validation, a PUT
against an id absent from the store responds 404 NOT_FOUND (the existence
check precedes the empty-update check, so in particular an empty body gets
404, not 400 NO_UPDATES) and the store is unchanged. -/
theorem update_nonexistent_notFound (lib : JsLib) (env : String) (store : List StoredUser)
    (id : String) (b : UserBody) (now : String)
    (hu : lib.isUuid id = true)
    (hv : updateUserViolations lib b = [])
    (hnone : ∀ u ∈ store, u.id ≠ id) :
    respStatus (finalize env (updateUserPipeline lib (Except.ok store) id b now).1) = 404 ∧
    respCode (finalize env (updateUserPipeline lib (Except.ok store) id b now).1) =
      some (JsCode.str "NOT_FOUND") ∧
    (updateUserPipeline lib (Except.ok store) id b now).2.1 = Except.ok store := by
  have hfil : store.filter (fun u => u.id == id) = [] :=
    filter_eq_nil_of_forall (fun u hu' => by simp [hnone u hu'])
  have hkey : updateUserPipeline lib (Except.ok store) id b now =
      (Outcome.raised (notFoundError "User not found"), Except.ok store,
        [DbStmt.selectById id]) := by
    simp [updateUserPipeline, updateUserHandler, hu, hv, hfil]
  have hEH := errorHandler_httpError env "User not found" 404 "NOT_FOUND"
    (by decide) (by decide)
  refine ⟨?_, ?_, by rw [hkey]⟩
  · rw [hkey]
    simp [finalize, notFoundError, hEH, respStatus]
  · rw [hkey]
    simp [finalize, notFoundError, hEH, respCode]

/-- Witness for the amended C10: empty body, empty store, 404 NOT_FOUND. -/
theorem update_nonexistent_notFound_witness :
    demoLib.isUuid "id-9" = true ∧
    updateUserViolations demoLib ⟨none, none, none⟩ = [] ∧
    (respStatus (finalize "development"
      (updateUserPipeline demoLib (Except.ok []) "id-9" ⟨none, none, none⟩ "T9").1) = 404 ∧
    respCode (finalize "development"
      (updateUserPipeline demoLib (Except.ok []) "id-9" ⟨none, none, none⟩ "T9").1) =
      some (JsCode.str "NOT_FOUND") ∧
    (updateUserPipeline demoLib (Except.ok []) "id-9" ⟨none, none, none⟩ "T9").2.1 =
      Except.ok []) :=
  ⟨by decide, by decide,
    update_nonexistent_notFound demoLib "development" [] "id-9" ⟨none, none, none⟩ "T9"
      (by decide) (by decide) (by simp)⟩
